import Mathlib

set_option maxRecDepth 4000

/-! Verification of the connection routing and lifecycle subsystem of the
cognix-ai backend, shallowly embedded from the Python source:
encryption utilities (src/backend/utils/encryption.py), the database
manager (src/backend/utils/database.py), connection-string validators
(src/backend/utils/validators.py) and the generic document-store
operations (src/backend/utils/model_utils.py). -/

namespace PyUrllib

/-- Characters allowed in a URI scheme by CPython urllib.parse
(scheme_chars = letters, digits, plus, minus, dot). -/
def schemeChar (c : Char) : Bool :=
  c.isAlpha || c.isDigit || c == '+' || c == '-' || c == '.'

/-- Split a character list at the first occurrence of a delimiter.
Returns none when the delimiter does not occur. -/
def splitOnFirst : List Char → Char → Option (List Char × List Char)
  | [], _ => none
  | c :: cs, d =>
    if c = d then some ([], cs)
    else
      match splitOnFirst cs d with
      | some (a, b) => some (c :: a, b)
      | none => none

/-- Model of urllib.parse._splitnetloc: the netloc extends to the first
slash, question mark or hash sign after the two leading slashes. -/
def splitNetloc : List Char → List Char × List Char
  | [] => ([], [])
  | c :: cs =>
    if c == '/' || c == '?' || c == '#' then ([], c :: cs)
    else
      let (n, r) := splitNetloc cs
      (c :: n, r)

/-- Scheme extraction as in urllib.parse.urlsplit: the text before the first
colon is the scheme when it is non-empty, starts with a letter and consists
of scheme characters only; the scheme is lowercased. -/
def extractScheme (l : List Char) : List Char × List Char :=
  match splitOnFirst l ':' with
  | some (pre, rest) =>
    match pre with
    | [] => ([], l)
    | c0 :: _ =>
      if c0.isAlpha && pre.all schemeChar then (pre.map Char.toLower, rest)
      else ([], l)
  | none => ([], l)

/-- Model of urllib.parse._splitparams: parameters are separated by a
semicolon occurring in the last path segment. -/
def splitParams (l : List Char) : List Char × List Char :=
  if l.contains '/' then
    match splitOnFirst l.reverse '/' with
    | some (revSeg, revPre) =>
      match splitOnFirst revSeg.reverse ';' with
      | some (a, b) => (revPre.reverse ++ '/' :: a, b)
      | none => (l, [])
    | none => (l, [])
  else
    match splitOnFirst l ';' with
    | some (a, b) => (a, b)
    | none => (l, [])

/-- Python str.startswith, computed on the character lists. -/
def startswith (s pre : String) : Bool := pre.data.isPrefixOf s.data

/-- Result records of urllib.parse.urlparse, restricted to the components
the embedded code reads. -/
structure UrlParts where
  scheme : String
  netloc : String
  path : String
  params : String
  query : String
  fragment : String
deriving Repr, DecidableEq

/-- Model of urllib.parse.urlparse: scheme, then netloc (after a leading
double slash), then fragment, then query, then path parameters. -/
def urlparse (url : String) : UrlParts :=
  let (sch, rest1) := extractScheme url.data
  let (netloc, rest2) :=
    match rest1 with
    | '/' :: '/' :: tail => splitNetloc tail
    | _ => ([], rest1)
  let (rest3, frag) :=
    match splitOnFirst rest2 '#' with
    | some (a, b) => (a, b)
    | none => (rest2, [])
  let (rest4, query) :=
    match splitOnFirst rest3 '?' with
    | some (a, b) => (a, b)
    | none => (rest3, [])
  let (path, params) := splitParams rest4
  ⟨⟨sch⟩, ⟨netloc⟩, ⟨path⟩, ⟨params⟩, ⟨query⟩, ⟨frag⟩⟩

end PyUrllib

namespace EncryptionService

/-- EncryptionService.encrypt (encryption.py lines 26-32): empty input is
returned unencrypted by design; otherwise the plaintext is utf-8 encoded,
passed to Fernet.encrypt, and the token is base64 encoded.  The external
primitives (str.encode, Fernet.encrypt, base64.b64encode) are parameters
over an abstract byte type B. -/
def encrypt {B : Type} (utf8Encode : String → B) (fernetEncrypt : B → B)
    (b64encode : B → String) (data : String) : String :=
  if data = "" then ""
  else b64encode (fernetEncrypt (utf8Encode data))

/-- The body of the try block of EncryptionService.decrypt (encryption.py
lines 39-42): base64 decode, Fernet decrypt, utf-8 decode; each external
primitive models a raised exception as none. -/
def decryptAttempt {B : Type} (b64decode : String → Option B)
    (fernetDecrypt : B → Option B) (utf8Decode : B → Option String)
    (encrypted_data : String) : Option String :=
  (b64decode encrypted_data).bind fun d =>
    (fernetDecrypt d).bind fun p => utf8Decode p

/-- EncryptionService.decrypt (encryption.py lines 34-45): empty input maps
to the empty string, and the catch-all except clause maps any failure of the
decryption pipeline to the empty string. -/
def decrypt {B : Type} (b64decode : String → Option B)
    (fernetDecrypt : B → Option B) (utf8Decode : B → Option String)
    (encrypted_data : String) : String :=
  if encrypted_data = "" then ""
  else
    match decryptAttempt b64decode fernetDecrypt utf8Decode encrypted_data with
    | some s => s
    | none => ""

end EncryptionService

deriving instance DecidableEq for Except

namespace DatabaseManager

/-- Observable database and network actions issued by the database manager:
a connection attempt (AsyncIOMotorClient construction plus the awaited ping
on it), an index creation call, and the collection-level CRUD calls. -/
inductive DBEvent where
  | connectAttempt (connection_string : String)
  | createIndex (collection : String) (index : String)
  | insertOne (collection : String)
  | findOne (collection : String)
  | updateOne (collection : String)
  | deleteOne (collection : String)
  | dropCollection (collection : String)
deriving Repr, DecidableEq

/-- Raised Python exceptions, separated by the error taxonomy the code
uses: ValueError (the configuration / input error channel), connection
failures raised by the driver, and other exceptions. -/
inductive PyErr where
  | valueError (msg : String)
  | connectionError (msg : String)
  | exception (msg : String)
deriving Repr, DecidableEq

/-- One value of the self.user_clients cache (database.py lines 63-66):
the client handle (identified by the connection string it was opened with)
and the indexes_created flag. -/
structure ClientEntry where
  client : String
  indexes_created : Bool
deriving Repr, DecidableEq

/-- The mutable state of the DatabaseManager instance (database.py lines
15-19): the platform database handle and the user-client cache. -/
structure DBMState where
  platform_db : Option String
  user_clients : List (String × ClientEntry)
deriving Repr, DecidableEq

/-- Python dict read self.user_clients[user_id] / membership test. -/
def lookupEntry : List (String × ClientEntry) → String → Option ClientEntry
  | [], _ => none
  | (k, v) :: rest, uid => if k = uid then some v else lookupEntry rest uid

/-- Python dict assignment self.user_clients[user_id] = entry. -/
def storeEntry : List (String × ClientEntry) → String → ClientEntry →
    List (String × ClientEntry)
  | [], uid, e => [(uid, e)]
  | (k, v) :: rest, uid, e =>
    if k = uid then (uid, e) :: rest else (k, v) :: storeEntry rest uid e

/-- DatabaseManager._extract_database_name (database.py lines 84-93): the
parsed path names the database when it is truthy and longer than one
character (the leading slash is removed), else the default
cognix_user_<user_id> is used. -/
def extract_database_name (connection_string user_id : String) : String :=
  let parsed := PyUrllib.urlparse connection_string
  if parsed.path ≠ "" ∧ parsed.path.length > 1 then parsed.path.drop 1
  else "cognix_user_" ++ user_id

/-- The index-creation calls issued by _create_user_database_indexes
(database.py lines 95-127), in source order.  Individual failures are
caught and logged inside that method, so the calls are modelled as the
sequence of attempts. -/
def user_database_index_events : List DBEvent :=
  [ DBEvent.createIndex "chat_sessions" "user_id",
    DBEvent.createIndex "chat_sessions" "created_at",
    DBEvent.createIndex "chat_sessions" "user_id_1_created_at_-1",
    DBEvent.createIndex "messages" "chat_id",
    DBEvent.createIndex "messages" "timestamp",
    DBEvent.createIndex "messages" "chat_id_1_timestamp_1",
    DBEvent.createIndex "documents" "chat_id",
    DBEvent.createIndex "documents" "upload_date",
    DBEvent.createIndex "documents" "processing_status",
    DBEvent.createIndex "document_chunks" "document_id",
    DBEvent.createIndex "document_chunks" "chat_id",
    DBEvent.createIndex "document_chunks" "document_id_1_chunk_index_1",
    DBEvent.createIndex "document_chunks" "chat_id_1_chunk_index_1" ]

/-- The part of get_user_database after the cache-population block
(database.py lines 69-78): extract the database name, read the cached
client, and run the index creation once per tenant guarded by the
indexes_created flag. -/
def get_user_database_access (st : DBMState) (user_id connection_string : String) :
    Except PyErr String × DBMState × List DBEvent :=
  let db_name := extract_database_name connection_string user_id
  match lookupEntry st.user_clients user_id with
  | some entry =>
    if entry.indexes_created then (Except.ok db_name, st, [])
    else
      (Except.ok db_name,
        { st with user_clients := storeEntry st.user_clients user_id ⟨entry.client, true⟩ },
        user_database_index_events)
  | none => (Except.error (PyErr.exception "KeyError"), st, [])

/-- DatabaseManager.get_user_database (database.py lines 56-82) run from
start to completion with no interleaving: on a cache miss a client is
constructed and pinged (one connection attempt); on ping success the entry
is inserted, then the access path runs; a ping failure is re-raised as the
driver connection error. -/
def get_user_database (pingOk : String → Bool) (st : DBMState)
    (user_id connection_string : String) :
    Except PyErr String × DBMState × List DBEvent :=
  match lookupEntry st.user_clients user_id with
  | none =>
    if pingOk connection_string then
      let st1 : DBMState :=
        { st with user_clients := storeEntry st.user_clients user_id ⟨connection_string, false⟩ }
      let r := get_user_database_access st1 user_id connection_string
      (r.1, r.2.1, DBEvent.connectAttempt connection_string :: r.2.2)
    else
      (Except.error (PyErr.connectionError "ping failed"), st,
        [DBEvent.connectAttempt connection_string])
  | some _ => get_user_database_access st user_id connection_string

/-- Python truthiness of an optional string argument (None and the empty
string are falsy). -/
def truthy : Option String → Bool
  | none => false
  | some s => !(s == "")

/-- Python str() of an optional string, as interpolated into f-strings. -/
def pyStr : Option String → String
  | none => "None"
  | some s => s

/-- DatabaseManager.route_to_database (database.py lines 242-249). -/
def route_to_database (user_id : Option String) (operation_type : String) :
    Except PyErr String :=
  if operation_type = "platform" ∨ operation_type = "auth" then Except.ok "platform"
  else if operation_type = "user" ∧ truthy user_id = true then Except.ok "user"
  else
    Except.error (PyErr.valueError
      ("Invalid operation type or missing user_id: " ++ operation_type ++ ", " ++ pyStr user_id))

/-- DatabaseManager.get_database_for_operation (database.py lines 251-264). -/
def get_database_for_operation (pingOk : String → Bool) (st : DBMState)
    (user_id : Option String) (operation_type : String)
    (user_connection : Option String) :
    Except PyErr String × DBMState × List DBEvent :=
  match route_to_database user_id operation_type with
  | Except.error e => (Except.error e, st, [])
  | Except.ok route =>
    if route = "platform" then
      match st.platform_db with
      | none => (Except.error (PyErr.exception "Platform database not connected"), st, [])
      | some db => (Except.ok db, st, [])
    else if route = "user" then
      if truthy user_connection = true then
        get_user_database pingOk st (pyStr user_id) (pyStr user_connection)
      else
        (Except.error (PyErr.valueError "User connection string required for user operations"),
          st, [])
    else
      (Except.error (PyErr.valueError ("Unknown database route: " ++ route)), st, [])

/-- Recognizer for index-creation events. -/
def isCreateIndex : DBEvent → Bool
  | DBEvent.createIndex _ _ => true
  | _ => false

/-- Recognizer for connection attempts. -/
def isConnectAttempt : DBEvent → Bool
  | DBEvent.connectAttempt _ => true
  | _ => false

/-- Number of index-creation calls in a trace. -/
def countCreateIndex (evs : List DBEvent) : Nat := (evs.filter isCreateIndex).length

/-- Number of underlying connection attempts in a trace. -/
def countConnectAttempts (evs : List DBEvent) : Nat := (evs.filter isConnectAttempt).length

end DatabaseManager

namespace ValidationService

/-- ValidationService.validate_mongodb_connection (validators.py lines
52-68): reject any connection string whose parsed scheme does not start
with mongodb before constructing a client; otherwise construct the client
and await a ping (one network event), mapping a raised exception to the
Connection failed error text. -/
def validate_mongodb_connection (ping : String → Except String Unit)
    (connection_string : String) :
    (Bool × Option String) × List DatabaseManager.DBEvent :=
  let parsed := PyUrllib.urlparse connection_string
  if PyUrllib.startswith parsed.scheme "mongodb" = false then
    ((false, some "Invalid MongoDB connection string format"), [])
  else
    match ping connection_string with
    | Except.ok _ =>
      ((true, none), [DatabaseManager.DBEvent.connectAttempt connection_string])
    | Except.error e =>
      ((false, some ("Connection failed: " ++ e)),
        [DatabaseManager.DBEvent.connectAttempt connection_string])

end ValidationService

namespace DatabaseManager

/-- Progress of one coroutine executing get_user_database concurrently.
The cache check and the client construction happen atomically when the
coroutine is first scheduled; the awaited ping (database.py line 62) is a
suspension point, so the cache insert (lines 63-66) only happens on the
next scheduling; the remainder of the method runs after that. -/
inductive CallerPhase where
  | start
  | awaitingPing
  | finishing
  | done (result : Except PyErr String)
deriving Repr, DecidableEq

/-- One concurrent caller of get_user_database. -/
structure CallerTask where
  user_id : String
  connection_string : String
  phase : CallerPhase
deriving Repr, DecidableEq

/-- One scheduler step of a caller coroutine against the shared
DatabaseManager state; returns the new shared state, the advanced caller
and the events the step emitted. -/
def stepTask (pingOk : String → Bool) (st : DBMState) (t : CallerTask) :
    DBMState × CallerTask × List DBEvent :=
  match t.phase with
  | CallerPhase.start =>
    match lookupEntry st.user_clients t.user_id with
    | none =>
      (st, { t with phase := CallerPhase.awaitingPing },
        [DBEvent.connectAttempt t.connection_string])
    | some _ => (st, { t with phase := CallerPhase.finishing }, [])
  | CallerPhase.awaitingPing =>
    if pingOk t.connection_string then
      ({ st with user_clients :=
          storeEntry st.user_clients t.user_id ⟨t.connection_string, false⟩ },
        { t with phase := CallerPhase.finishing }, [])
    else
      (st,
        { t with phase :=
            CallerPhase.done (Except.error (PyErr.connectionError "ping failed")) }, [])
  | CallerPhase.finishing =>
    let r := get_user_database_access st t.user_id t.connection_string
    (r.2.1, { t with phase := CallerPhase.done r.1 }, r.2.2)
  | CallerPhase.done _ => (st, t, [])

/-- Run an explicit interleaving of concurrent callers: each schedule entry
names the caller that takes the next step. -/
def runSchedule (pingOk : String → Bool) :
    DBMState → List CallerTask → List Nat → DBMState × List CallerTask × List DBEvent
  | st, tasks, [] => (st, tasks, [])
  | st, tasks, i :: rest =>
    match tasks[i]? with
    | none => runSchedule pingOk st tasks rest
    | some t =>
      let r := stepTask pingOk st t
      let r2 := runSchedule pingOk r.1 (tasks.set i r.2.1) rest
      (r2.1, r2.2.1, r.2.2 ++ r2.2.2)

/-- Collection-level operations: actual reads or writes of stored
documents, as opposed to connection attempts and index creation. -/
def isCollectionOp : DBEvent → Bool
  | DBEvent.insertOne _ => true
  | DBEvent.findOne _ => true
  | DBEvent.updateOne _ => true
  | DBEvent.deleteOne _ => true
  | DBEvent.dropCollection _ => true
  | _ => false

/-- Outcomes of the awaited driver calls inside
test_user_database_operations: each call either succeeds or raises with an
error text; find_one additionally reports whether a document came back. -/
structure SmokeOutcomes where
  insert_result : Except String Unit
  find_result : Except String Bool
  update_result : Except String Unit
  delete_result : Except String Unit
  drop_result : Except String Unit
deriving Repr, DecidableEq

/-- The result dict of test_user_database_operations (database.py lines
192-196). -/
structure TestOpsResult where
  success : Bool
  operations_tested : List String
  error : Option String
deriving Repr, DecidableEq

/-- The full event sequence of a successful smoke test, in source order
(database.py lines 205-228). -/
def smoke_test_events : List DBEvent :=
  [ DBEvent.insertOne "test_collection",
    DBEvent.findOne "test_collection",
    DBEvent.updateOne "test_collection",
    DBEvent.deleteOne "test_collection",
    DBEvent.dropCollection "test_collection" ]

/-- DatabaseManager.test_user_database_operations (database.py lines
190-240): insert, find-by-id (raising when the document is absent),
update, delete, then drop as cleanup; each of insert/find/update/delete
appends its name to operations_tested on success; any raised exception
aborts the try block, records the error and leaves success false; the
test client is closed in the finally block (no event). -/
def test_user_database_operations (env : SmokeOutcomes)
    (user_id connection_string : String) : TestOpsResult × List DBEvent :=
  match env.insert_result with
  | Except.error e => (⟨false, [], some e⟩, [DBEvent.insertOne "test_collection"])
  | Except.ok _ =>
    match env.find_result with
    | Except.error e =>
      (⟨false, ["insert"], some e⟩,
        [DBEvent.insertOne "test_collection", DBEvent.findOne "test_collection"])
    | Except.ok found =>
      if found = false then
        (⟨false, ["insert"], some "Document not found after insert"⟩,
          [DBEvent.insertOne "test_collection", DBEvent.findOne "test_collection"])
      else
        match env.update_result with
        | Except.error e =>
          (⟨false, ["insert", "find"], some e⟩,
            [DBEvent.insertOne "test_collection", DBEvent.findOne "test_collection",
              DBEvent.updateOne "test_collection"])
        | Except.ok _ =>
          match env.delete_result with
          | Except.error e =>
            (⟨false, ["insert", "find", "update"], some e⟩,
              [DBEvent.insertOne "test_collection", DBEvent.findOne "test_collection",
                DBEvent.updateOne "test_collection", DBEvent.deleteOne "test_collection"])
          | Except.ok _ =>
            match env.drop_result with
            | Except.error e =>
              (⟨false, ["insert", "find", "update", "delete"], some e⟩, smoke_test_events)
            | Except.ok _ =>
              (⟨true, ["insert", "find", "update", "delete"], none⟩, smoke_test_events)

end DatabaseManager

namespace ModelOperations

/-- Validity of a bson ObjectId built from a string: exactly 24
hexadecimal characters. -/
def is_valid_object_id (s : String) : Bool :=
  s.length == 24 &&
    s.data.all (fun c =>
      c.isDigit ||
      ((Nat.ble 97 c.toNat) && (Nat.ble c.toNat 102)) ||
      ((Nat.ble 65 c.toNat) && (Nat.ble c.toNat 70)))

/-- ModelValidator.ensure_object_id (model_utils.py lines 77-88),
restricted to the string branch used by the document operations: an
invalid ObjectId string raises ValueError. -/
def ensure_object_id (id_value : String) : Except DatabaseManager.PyErr String :=
  if is_valid_object_id id_value then Except.ok id_value
  else
    Except.error (DatabaseManager.PyErr.valueError ("Invalid ObjectId string: " ++ id_value))

/-- ModelOperations.get_document (model_utils.py lines 120-142): resolve
the database via get_database_for_operation (which may connect and create
indexes), then validate the identifier, then issue find_one; the document
payload is abstracted to the identifier and the found flag supplied by the
collection model. -/
def get_document (pingOk : String → Bool) (st : DatabaseManager.DBMState)
    (collection_name document_id : String) (user_id : Option String)
    (operation_type : String) (user_connection : Option String) (found : Bool) :
    Except DatabaseManager.PyErr (Option String) × DatabaseManager.DBMState ×
      List DatabaseManager.DBEvent :=
  match DatabaseManager.get_database_for_operation pingOk st user_id operation_type
      user_connection with
  | (Except.error e, st1, evs) => (Except.error e, st1, evs)
  | (Except.ok _, st1, evs) =>
    match ensure_object_id document_id with
    | Except.error e => (Except.error e, st1, evs)
    | Except.ok oid =>
      if found then
        (Except.ok (some oid), st1, evs ++ [DatabaseManager.DBEvent.findOne collection_name])
      else
        (Except.ok none, st1, evs ++ [DatabaseManager.DBEvent.findOne collection_name])

/-- ModelOperations.update_document (model_utils.py lines 144-171):
resolve the database, validate the identifier, issue update_one and
report modified_count > 0. -/
def update_document (pingOk : String → Bool) (st : DatabaseManager.DBMState)
    (collection_name document_id : String) (user_id : Option String)
    (operation_type : String) (user_connection : Option String)
    (modified_count : Nat) :
    Except DatabaseManager.PyErr Bool × DatabaseManager.DBMState ×
      List DatabaseManager.DBEvent :=
  match DatabaseManager.get_database_for_operation pingOk st user_id operation_type
      user_connection with
  | (Except.error e, st1, evs) => (Except.error e, st1, evs)
  | (Except.ok _, st1, evs) =>
    match ensure_object_id document_id with
    | Except.error e => (Except.error e, st1, evs)
    | Except.ok _ =>
      (Except.ok (Nat.blt 0 modified_count), st1,
        evs ++ [DatabaseManager.DBEvent.updateOne collection_name])

/-- ModelOperations.delete_document (model_utils.py lines 173-196):
resolve the database, validate the identifier, issue delete_one and
report deleted_count > 0. -/
def delete_document (pingOk : String → Bool) (st : DatabaseManager.DBMState)
    (collection_name document_id : String) (user_id : Option String)
    (operation_type : String) (user_connection : Option String)
    (deleted_count : Nat) :
    Except DatabaseManager.PyErr Bool × DatabaseManager.DBMState ×
      List DatabaseManager.DBEvent :=
  match DatabaseManager.get_database_for_operation pingOk st user_id operation_type
      user_connection with
  | (Except.error e, st1, evs) => (Except.error e, st1, evs)
  | (Except.ok _, st1, evs) =>
    match ensure_object_id document_id with
    | Except.error e => (Except.error e, st1, evs)
    | Except.ok _ =>
      (Except.ok (Nat.blt 0 deleted_count), st1,
        evs ++ [DatabaseManager.DBEvent.deleteOne collection_name])

/-- Python truthiness of the optional integer arguments skip and limit of
find_documents: None and 0 are falsy, so only other values take effect.
The values are modelled as naturals; pymongo rejects negative ones. -/
def truthyNat : Option Nat → Bool
  | none => false
  | some n => !(n == 0)

/-- Motor cursor.to_list(length): length None materializes the whole
cursor, a number returns at most that many documents. -/
def cursor_to_list {D : Type} (docs : List D) (length : Option Nat) : List D :=
  match length with
  | none => docs
  | some n => docs.take n

/-- The cursor pipeline of ModelOperations.find_documents (model_utils.py
lines 212-222): filter, then sort when the sort argument is truthy, then
skip and limit each applied only when truthy, then materialization via
to_list(length=limit).  The collection content is the docs argument, the
filter is a predicate on documents, and the sort step is an abstract
reordering function. -/
def find_documents {D : Type} (docs : List D) (filter_pred : D → Bool)
    (limit skip : Option Nat) (sort : Option (List (String × Int)))
    (sortApply : List (String × Int) → List D → List D) : List D :=
  let cursor0 := docs.filter filter_pred
  let cursor1 :=
    match sort with
    | some keys => if keys.isEmpty then cursor0 else sortApply keys cursor0
    | none => cursor0
  let cursor2 := if truthyNat skip then cursor1.drop (skip.getD 0) else cursor1
  let cursor3 := if truthyNat limit then cursor2.take (limit.getD 0) else cursor2
  cursor_to_list cursor3 limit

end ModelOperations

section SanityChecks

example : (PyUrllib.urlparse "mongodb://localhost:27017").scheme = "mongodb" := by decide

example : (PyUrllib.urlparse "mongodb://localhost:27017").path = "" := by decide

example : (PyUrllib.urlparse "mongodb://localhost:27017/testdb").path = "/testdb" := by decide

example : (PyUrllib.urlparse "mongodb://localhost:27017/").path = "/" := by decide

example : (PyUrllib.urlparse "http://localhost:27017").scheme = "http" := by decide

example : (PyUrllib.urlparse "invalid-connection").scheme = "" := by decide

example : (PyUrllib.urlparse "mongodb+srv://u:p@host/db?retryWrites=true").scheme = "mongodb+srv" := by decide

example : (PyUrllib.urlparse "mongodb+srv://u:p@host/db?retryWrites=true").path = "/db" := by decide

example : DatabaseManager.route_to_database (some "user123") "user" = Except.ok "user" := by decide

example : DatabaseManager.route_to_database none "platform" = Except.ok "platform" := by decide

example :
    (ValidationService.validate_mongodb_connection (fun _ => Except.ok ())
      "mongodb://localhost:27017/test").1 = (true, none) := by decide

end SanityChecks

/-- Reading the user-client cache after a dict assignment for the same key
returns the assigned entry. -/
theorem lookupEntry_storeEntry_same (l : List (String × DatabaseManager.ClientEntry))
    (uid : String) (e : DatabaseManager.ClientEntry) :
    DatabaseManager.lookupEntry (DatabaseManager.storeEntry l uid e) uid = some e := by
  induction l with
  | nil => simp [DatabaseManager.storeEntry, DatabaseManager.lookupEntry]
  | cons kv rest ih =>
    rcases kv with ⟨k, v⟩
    by_cases hk : k = uid <;>
      simp [DatabaseManager.storeEntry, DatabaseManager.lookupEntry, hk, ih]

/-- C1: for every plaintext string s, decrypt (encrypt s) = s, given the
round-trip contracts of the external primitives (utf-8 codec, Fernet,
base64) and the fact that a base64-encoded Fernet token is never the empty
string; in particular encrypt "" = "" and decrypt "" = "" by definition. -/
theorem encrypt_decrypt_roundtrip {B : Type}
    (utf8Encode : String → B) (fernetEncrypt : B → B) (b64encode : B → String)
    (b64decode : String → Option B) (fernetDecrypt : B → Option B)
    (utf8Decode : B → Option String)
    (hu : ∀ s, utf8Decode (utf8Encode s) = some s)
    (hf : ∀ b, fernetDecrypt (fernetEncrypt b) = some b)
    (hb : ∀ b, b64decode (b64encode b) = some b)
    (hne : ∀ b, b64encode (fernetEncrypt b) ≠ "")
    (s : String) :
    EncryptionService.decrypt b64decode fernetDecrypt utf8Decode
      (EncryptionService.encrypt utf8Encode fernetEncrypt b64encode s) = s
    ∧ EncryptionService.encrypt utf8Encode fernetEncrypt b64encode "" = ""
    ∧ EncryptionService.decrypt b64decode fernetDecrypt utf8Decode "" = "" := by
  refine ⟨?_, by simp [EncryptionService.encrypt], by simp [EncryptionService.decrypt]⟩
  by_cases hs : s = ""
  · subst hs
    simp [EncryptionService.encrypt, EncryptionService.decrypt]
  · simp [EncryptionService.encrypt, EncryptionService.decrypt,
      EncryptionService.decryptAttempt, hs, hne, hu, hf, hb]

/-- Witness for C1: a concrete instantiation of the external primitives over
B = List Char, applied to a concrete plaintext. -/
theorem encrypt_decrypt_roundtrip_witness :
    EncryptionService.decrypt (B := List Char)
      (fun t => match t.data with | [] => none | _ :: r => some r)
      (fun l => match l with | [] => none | _ :: r => some r)
      (fun l => some (String.mk l))
      (EncryptionService.encrypt (fun s => s.data) (fun l => 'f' :: l)
        (fun l => String.mk ('c' :: l)) "api-key-123") = "api-key-123" := by
  have h := encrypt_decrypt_roundtrip (B := List Char)
    (fun s => s.data) (fun l => 'f' :: l) (fun l => String.mk ('c' :: l))
    (fun t => match t.data with | [] => none | _ :: r => some r)
    (fun l => match l with | [] => none | _ :: r => some r)
    (fun l => some (String.mk l))
    (fun s => rfl) (fun b => rfl) (fun b => rfl)
    (fun b hb => by simpa using congrArg String.data hb)
    "api-key-123"
  exact h.1

/-- C3: decrypt is a total function (the catch-all except clause is modelled
by the Option pipeline), and whenever the input is empty or the decryption
pipeline fails at any stage, the result is the empty string. -/
theorem decrypt_failure_yields_empty {B : Type}
    (b64decode : String → Option B) (fernetDecrypt : B → Option B)
    (utf8Decode : B → Option String) (c : String)
    (h : c = "" ∨
      EncryptionService.decryptAttempt b64decode fernetDecrypt utf8Decode c = none) :
    EncryptionService.decrypt b64decode fernetDecrypt utf8Decode c = "" := by
  rcases h with h | h
  · subst h
    simp [EncryptionService.decrypt]
  · by_cases hc : c = "" <;> simp [EncryptionService.decrypt, hc, h]

/-- Witness for C3: a concrete malformed ciphertext (not a Fernet token)
decrypts to the empty string. -/
theorem decrypt_failure_yields_empty_witness :
    EncryptionService.decrypt (B := List Char)
      (fun t => some t.data)
      (fun l => match l with | 'f' :: r => some r | _ => none)
      (fun l => some (String.mk l)) "x" = "" := by
  exact decrypt_failure_yields_empty _ _ _ "x" (Or.inr (by decide))

/-- C4: for every connection string whose parsed URI scheme does not start
with mongodb, validate_mongodb_connection returns valid = false with the
format error message and an empty network trace (the format check rejects
before any I/O). -/
theorem validate_rejects_non_mongodb_scheme_without_network
    (ping : String → Except String Unit) (connection_string : String)
    (h : PyUrllib.startswith (PyUrllib.urlparse connection_string).scheme "mongodb" = false) :
    ValidationService.validate_mongodb_connection ping connection_string =
      ((false, some "Invalid MongoDB connection string format"), []) := by
  simp [ValidationService.validate_mongodb_connection, h]

/-- Witness for C4 at the spec example input http://localhost:27017. -/
theorem validate_rejects_non_mongodb_scheme_without_network_witness :
    ValidationService.validate_mongodb_connection (fun _ => Except.ok ())
      "http://localhost:27017" =
      ((false, some "Invalid MongoDB connection string format"), []) := by
  exact validate_rejects_non_mongodb_scheme_without_network _ _ (by decide)

/-- C5: requesting the tenant route with a missing (None or empty) tenant
id fails with ValueError, the configuration-error channel of this code,
both in route_to_database and in get_database_for_operation, and that
error is not a connection error. -/
theorem route_missing_tenant_id_is_configuration_error
    (user_id : Option String) (h : DatabaseManager.truthy user_id = false) :
    DatabaseManager.route_to_database user_id "user" =
      Except.error (DatabaseManager.PyErr.valueError
        ("Invalid operation type or missing user_id: user, " ++ DatabaseManager.pyStr user_id))
    ∧ (∀ (pingOk : String → Bool) (st : DatabaseManager.DBMState) (conn : Option String),
        (DatabaseManager.get_database_for_operation pingOk st user_id "user" conn).1 =
          Except.error (DatabaseManager.PyErr.valueError
            ("Invalid operation type or missing user_id: user, " ++
              DatabaseManager.pyStr user_id)))
    ∧ (∀ m : String,
        Except.error (DatabaseManager.PyErr.valueError
          ("Invalid operation type or missing user_id: user, " ++
            DatabaseManager.pyStr user_id)) ≠
        (Except.error (DatabaseManager.PyErr.connectionError m) :
          Except DatabaseManager.PyErr String)) := by
  have hroute : DatabaseManager.route_to_database user_id "user" =
      Except.error (DatabaseManager.PyErr.valueError
        ("Invalid operation type or missing user_id: user, " ++
          DatabaseManager.pyStr user_id)) := by
    simp [DatabaseManager.route_to_database, h]
  refine ⟨hroute, ?_, ?_⟩
  · intro pingOk st conn
    simp [DatabaseManager.get_database_for_operation, hroute]
  · intro m
    simp

/-- Witness for C5 at user_id = None. -/
theorem route_missing_tenant_id_is_configuration_error_witness :
    DatabaseManager.route_to_database none "user" =
      Except.error (DatabaseManager.PyErr.valueError
        "Invalid operation type or missing user_id: user, None") := by
  exact (route_missing_tenant_id_is_configuration_error none (by decide)).1

/-- C7 fails as stated: for mongodb://localhost:27017/ the parsed path is
the non-empty string consisting of the bare slash, yet the extracted name
is the default cognix_user_abc rather than the path with the leading slash
removed (which would be the empty string). -/
theorem extract_database_name_slash_path_counterexample :
    (PyUrllib.urlparse "mongodb://localhost:27017/").path = "/"
    ∧ (PyUrllib.urlparse "mongodb://localhost:27017/").path ≠ ""
    ∧ DatabaseManager.extract_database_name "mongodb://localhost:27017/" "abc" =
        "cognix_user_abc"
    ∧ DatabaseManager.extract_database_name "mongodb://localhost:27017/" "abc" ≠
        ((PyUrllib.urlparse "mongodb://localhost:27017/").path.drop 1) := by
  decide

/-- C7 amended: the parsed path names the logical database exactly when it
is longer than one character (non-empty after removing the leading slash);
otherwise (no path, or a bare slash) the deterministic default
cognix_user_<tenant_id> is returned. -/
theorem extract_database_name_spec (connection_string user_id : String) :
    ((PyUrllib.urlparse connection_string).path.length > 1 →
      DatabaseManager.extract_database_name connection_string user_id =
        (PyUrllib.urlparse connection_string).path.drop 1)
    ∧ (¬ (PyUrllib.urlparse connection_string).path.length > 1 →
      DatabaseManager.extract_database_name connection_string user_id =
        "cognix_user_" ++ user_id) := by
  constructor
  · intro h
    have hne : (PyUrllib.urlparse connection_string).path ≠ "" := by
      intro he
      rw [he] at h
      simp at h
    simp [DatabaseManager.extract_database_name, hne, h]
  · intro h
    simp [DatabaseManager.extract_database_name, h]

/-- Witness for amended C7 at the spec example: tenant abc with a path-less
connection string gets the deterministic default name. -/
theorem extract_database_name_spec_witness :
    DatabaseManager.extract_database_name "mongodb://localhost:27017" "abc" =
      "cognix_user_abc" := by
  exact (extract_database_name_spec "mongodb://localhost:27017" "abc").2 (by decide)

/-- C9: for an uncached tenant with a reachable database, the first
get_user_database call performs the 13 index-creation calls, and an
immediately following second call for the same tenant performs no
index-creation call and no connection attempt (the work is guarded by the
per-tenant indexes_created flag). -/
theorem ensure_schema_idempotent_per_tenant (pingOk : String → Bool)
    (st : DatabaseManager.DBMState) (user_id connection_string : String)
    (hmiss : DatabaseManager.lookupEntry st.user_clients user_id = none)
    (hping : pingOk connection_string = true) :
    DatabaseManager.countCreateIndex
      (DatabaseManager.get_user_database pingOk st user_id connection_string).2.2 = 13
    ∧ DatabaseManager.countCreateIndex
        (DatabaseManager.get_user_database pingOk
          (DatabaseManager.get_user_database pingOk st user_id connection_string).2.1
          user_id connection_string).2.2 = 0
    ∧ DatabaseManager.countConnectAttempts
        (DatabaseManager.get_user_database pingOk
          (DatabaseManager.get_user_database pingOk st user_id connection_string).2.1
          user_id connection_string).2.2 = 0 := by
  have h1 : DatabaseManager.get_user_database pingOk st user_id connection_string =
      (Except.ok (DatabaseManager.extract_database_name connection_string user_id),
        DatabaseManager.DBMState.mk st.platform_db
          (DatabaseManager.storeEntry
            (DatabaseManager.storeEntry st.user_clients user_id ⟨connection_string, false⟩)
            user_id ⟨connection_string, true⟩),
        DatabaseManager.DBEvent.connectAttempt connection_string ::
          DatabaseManager.user_database_index_events) := by
    simp [DatabaseManager.get_user_database, hmiss, hping,
      DatabaseManager.get_user_database_access, lookupEntry_storeEntry_same]
  have hlook2 : DatabaseManager.lookupEntry
      (DatabaseManager.storeEntry
        (DatabaseManager.storeEntry st.user_clients user_id ⟨connection_string, false⟩)
        user_id ⟨connection_string, true⟩) user_id = some ⟨connection_string, true⟩ :=
    lookupEntry_storeEntry_same _ _ _
  refine ⟨?_, ?_, ?_⟩
  · rw [h1]
    simp [DatabaseManager.countCreateIndex, DatabaseManager.user_database_index_events,
      DatabaseManager.isCreateIndex]
  · rw [h1]
    simp [DatabaseManager.get_user_database, hlook2,
      DatabaseManager.get_user_database_access, DatabaseManager.countCreateIndex]
  · rw [h1]
    simp [DatabaseManager.get_user_database, hlook2,
      DatabaseManager.get_user_database_access, DatabaseManager.countConnectAttempts]

/-- Witness for C9 at a concrete tenant, connection string and reachable
network. -/
theorem ensure_schema_idempotent_per_tenant_witness :
    DatabaseManager.countCreateIndex
      (DatabaseManager.get_user_database (fun _ => true) ⟨none, []⟩ "t1"
        "mongodb://localhost:27017/db").2.2 = 13
    ∧ DatabaseManager.countCreateIndex
        (DatabaseManager.get_user_database (fun _ => true)
          (DatabaseManager.get_user_database (fun _ => true) ⟨none, []⟩ "t1"
            "mongodb://localhost:27017/db").2.1
          "t1" "mongodb://localhost:27017/db").2.2 = 0
    ∧ DatabaseManager.countConnectAttempts
        (DatabaseManager.get_user_database (fun _ => true)
          (DatabaseManager.get_user_database (fun _ => true) ⟨none, []⟩ "t1"
            "mongodb://localhost:27017/db").2.1
          "t1" "mongodb://localhost:27017/db").2.2 = 0 := by
  exact ensure_schema_idempotent_per_tenant (fun _ => true) ⟨none, []⟩ "t1"
    "mongodb://localhost:27017/db" rfl rfl

/-- C2 fails on the code: when two concurrent first-time get_user_database
callers for the same tenant are interleaved so that both run the cache
check before either cache insert (the check and the insert are separated
by the awaited ping and there is no per-tenant single-flight guard), two
underlying connection attempts are performed, although both callers
finish successfully. -/
theorem concurrent_first_access_two_connection_attempts :
    DatabaseManager.countConnectAttempts
      (DatabaseManager.runSchedule (fun _ => true) ⟨none, []⟩
        [⟨"t1", "mongodb://localhost:27017/db", DatabaseManager.CallerPhase.start⟩,
         ⟨"t1", "mongodb://localhost:27017/db", DatabaseManager.CallerPhase.start⟩]
        [0, 1, 0, 1, 0, 1]).2.2 = 2
    ∧ ((DatabaseManager.runSchedule (fun _ => true) ⟨none, []⟩
        [⟨"t1", "mongodb://localhost:27017/db", DatabaseManager.CallerPhase.start⟩,
         ⟨"t1", "mongodb://localhost:27017/db", DatabaseManager.CallerPhase.start⟩]
        [0, 1, 0, 1, 0, 1]).2.1.all
        (fun t => t.phase ==
          DatabaseManager.CallerPhase.done (Except.ok "db"))) = true := by
  decide

/-- Serializing the same two callers (the second runs only after the first
has completed) performs exactly one connection attempt: the duplicate
connection of the previous theorem is specific to the interleaving. -/
theorem serialized_access_single_connection_attempt :
    DatabaseManager.countConnectAttempts
      (DatabaseManager.runSchedule (fun _ => true) ⟨none, []⟩
        [⟨"t1", "mongodb://localhost:27017/db", DatabaseManager.CallerPhase.start⟩,
         ⟨"t1", "mongodb://localhost:27017/db", DatabaseManager.CallerPhase.start⟩]
        [0, 0, 0, 1, 1]).2.2 = 1 := by
  decide

/-- The post-cache phase of get_user_database emits no collection-level
operation (only index creation). -/
theorem get_user_database_access_no_collection_op (st : DatabaseManager.DBMState)
    (uid cs : String) :
    ∀ e ∈ (DatabaseManager.get_user_database_access st uid cs).2.2,
      DatabaseManager.isCollectionOp e = false := by
  rcases hl : DatabaseManager.lookupEntry st.user_clients uid with _ | entry
  · simp [DatabaseManager.get_user_database_access, hl]
  · by_cases he : entry.indexes_created = true
    · simp [DatabaseManager.get_user_database_access, hl, he]
    · simp only [DatabaseManager.get_user_database_access, hl, he]
      simp only [Bool.false_eq_true, if_false]
      decide

/-- get_user_database emits no collection-level operation (only the
connection attempt and index creation). -/
theorem get_user_database_no_collection_op (pingOk : String → Bool)
    (st : DatabaseManager.DBMState) (uid cs : String) :
    ∀ e ∈ (DatabaseManager.get_user_database pingOk st uid cs).2.2,
      DatabaseManager.isCollectionOp e = false := by
  rcases hl : DatabaseManager.lookupEntry st.user_clients uid with _ | entry
  · by_cases hp : pingOk cs = true
    · have h2 := get_user_database_access_no_collection_op
        ⟨st.platform_db,
          DatabaseManager.storeEntry st.user_clients uid ⟨cs, false⟩⟩ uid cs
      simp only [DatabaseManager.get_user_database, hl, hp, if_true]
      intro e he
      rcases List.mem_cons.mp he with h | h
      · subst h
        rfl
      · exact h2 e h
    · simp [DatabaseManager.get_user_database, hl, hp, DatabaseManager.isCollectionOp]
  · have h2 := get_user_database_access_no_collection_op st uid cs
    simpa [DatabaseManager.get_user_database, hl] using h2

/-- get_database_for_operation emits no collection-level operation. -/
theorem get_database_for_operation_no_collection_op (pingOk : String → Bool)
    (st : DatabaseManager.DBMState) (uid : Option String) (op : String)
    (conn : Option String) :
    ∀ e ∈ (DatabaseManager.get_database_for_operation pingOk st uid op conn).2.2,
      DatabaseManager.isCollectionOp e = false := by
  rcases hr : DatabaseManager.route_to_database uid op with e0 | route
  · simp [DatabaseManager.get_database_for_operation, hr]
  · by_cases h1 : route = "platform"
    · rcases hp : st.platform_db with _ | db <;>
        simp [DatabaseManager.get_database_for_operation, hr, h1, hp]
    · by_cases h2 : route = "user"
      · by_cases h3 : DatabaseManager.truthy conn = true
        · have h4 := get_user_database_no_collection_op pingOk st
            (DatabaseManager.pyStr uid) (DatabaseManager.pyStr conn)
          simpa [DatabaseManager.get_database_for_operation, hr, h1, h2, h3] using h4
        · simp [DatabaseManager.get_database_for_operation, hr, h1, h2, h3]
      · simp [DatabaseManager.get_database_for_operation, hr, h1, h2]

/-- C6 fails as stated: a get_document call with a malformed identifier
for a not-yet-cached tenant performs a network connection attempt (the
database resolution connects and creates indexes) before the identifier
check raises ValueError. -/
theorem get_document_malformed_id_counterexample :
    (ModelOperations.get_document (fun _ => true) ⟨some "platform", []⟩ "documents"
      "not-an-objectid" (some "u1") "user" (some "mongodb://localhost:27017/db")
      false).1 =
      Except.error (DatabaseManager.PyErr.valueError
        "Invalid ObjectId string: not-an-objectid")
    ∧ DatabaseManager.countConnectAttempts
        (ModelOperations.get_document (fun _ => true) ⟨some "platform", []⟩ "documents"
          "not-an-objectid" (some "u1") "user" (some "mongodb://localhost:27017/db")
          false).2.2 = 1 := by
  decide

/-- C6 amended: a malformed identifier makes get_document, update_document
and delete_document fail with ValueError before any collection-level
operation is issued (their traces contain only connection attempts and
index creation coming from the database resolution, which runs first);
whenever resolution succeeds, the returned error is exactly the
ValueError of the identifier check. -/
theorem document_ops_malformed_id_fail_fast (pingOk : String → Bool)
    (st : DatabaseManager.DBMState) (collection_name document_id : String)
    (user_id : Option String) (operation_type : String)
    (user_connection : Option String) (found : Bool)
    (modified_count deleted_count : Nat)
    (hbad : ModelOperations.is_valid_object_id document_id = false) :
    (∀ e ∈ (ModelOperations.get_document pingOk st collection_name document_id
        user_id operation_type user_connection found).2.2,
      DatabaseManager.isCollectionOp e = false)
    ∧ (∀ e ∈ (ModelOperations.update_document pingOk st collection_name document_id
        user_id operation_type user_connection modified_count).2.2,
      DatabaseManager.isCollectionOp e = false)
    ∧ (∀ e ∈ (ModelOperations.delete_document pingOk st collection_name document_id
        user_id operation_type user_connection deleted_count).2.2,
      DatabaseManager.isCollectionOp e = false)
    ∧ (∀ (db : String) (st1 : DatabaseManager.DBMState)
          (evs : List DatabaseManager.DBEvent),
        DatabaseManager.get_database_for_operation pingOk st user_id operation_type
            user_connection = (Except.ok db, st1, evs) →
        (ModelOperations.get_document pingOk st collection_name document_id
            user_id operation_type user_connection found).1 =
          Except.error (DatabaseManager.PyErr.valueError
            ("Invalid ObjectId string: " ++ document_id))
        ∧ (ModelOperations.update_document pingOk st collection_name document_id
            user_id operation_type user_connection modified_count).1 =
          Except.error (DatabaseManager.PyErr.valueError
            ("Invalid ObjectId string: " ++ document_id))
        ∧ (ModelOperations.delete_document pingOk st collection_name document_id
            user_id operation_type user_connection deleted_count).1 =
          Except.error (DatabaseManager.PyErr.valueError
            ("Invalid ObjectId string: " ++ document_id))) := by
  have herr : ModelOperations.ensure_object_id document_id =
      Except.error (DatabaseManager.PyErr.valueError
        ("Invalid ObjectId string: " ++ document_id)) := by
    simp [ModelOperations.ensure_object_id, hbad]
  rcases hres : DatabaseManager.get_database_for_operation pingOk st user_id
    operation_type user_connection with ⟨r, st1, evs⟩
  have haux : ∀ e ∈ evs, DatabaseManager.isCollectionOp e = false := by
    have h0 := get_database_for_operation_no_collection_op pingOk st user_id
      operation_type user_connection
    rw [hres] at h0
    exact h0
  refine ⟨?_, ?_, ?_, ?_⟩
  · rcases r with e0 | db0 <;>
      simp only [ModelOperations.get_document, hres, herr] <;> exact haux
  · rcases r with e0 | db0 <;>
      simp only [ModelOperations.update_document, hres, herr] <;> exact haux
  · rcases r with e0 | db0 <;>
      simp only [ModelOperations.delete_document, hres, herr] <;> exact haux
  · intro db st2 evs2 h
    simp only [Prod.mk.injEq] at h
    obtain ⟨h1, h2, h3⟩ := h
    subst h1
    refine ⟨?_, ?_, ?_⟩ <;>
      simp [ModelOperations.get_document, ModelOperations.update_document,
        ModelOperations.delete_document, hres, herr]

/-- Witness for amended C6: a concrete malformed identifier against a
successfully resolving tenant database yields the ValueError. -/
theorem document_ops_malformed_id_fail_fast_witness :
    (ModelOperations.get_document (fun _ => true) ⟨some "platform", []⟩ "documents"
      "xyz" (some "u1") "user" (some "mongodb://localhost:27017/db") false).1 =
      Except.error (DatabaseManager.PyErr.valueError "Invalid ObjectId string: xyz") := by
  have h := document_ops_malformed_id_fail_fast (fun _ => true) ⟨some "platform", []⟩
    "documents" "xyz" (some "u1") "user" (some "mongodb://localhost:27017/db")
    false 0 0 (by decide)
  exact (h.2.2.2 "db"
    ⟨some "platform", [("u1", ⟨"mongodb://localhost:27017/db", true⟩)]⟩
    (DatabaseManager.DBEvent.connectAttempt "mongodb://localhost:27017/db" ::
      DatabaseManager.user_database_index_events) (by decide)).1

/-- C8 fails as stated: on a fully successful run the drop is performed
but never recorded in operations_tested, and on an update failure the
already-inserted test document is left behind (no delete and no drop are
attempted) even though both could still run. -/
theorem smoke_test_counterexample :
    ((DatabaseManager.test_user_database_operations
        ⟨Except.ok (), Except.ok true, Except.ok (), Except.ok (), Except.ok ()⟩
        "t1" "mongodb://localhost:27017/db").1.success = true
      ∧ (DatabaseManager.test_user_database_operations
          ⟨Except.ok (), Except.ok true, Except.ok (), Except.ok (), Except.ok ()⟩
          "t1" "mongodb://localhost:27017/db").2.contains
            (DatabaseManager.DBEvent.dropCollection "test_collection") = true
      ∧ (DatabaseManager.test_user_database_operations
          ⟨Except.ok (), Except.ok true, Except.ok (), Except.ok (), Except.ok ()⟩
          "t1" "mongodb://localhost:27017/db").1.operations_tested.contains "drop" = false)
    ∧ ((DatabaseManager.test_user_database_operations
        ⟨Except.ok (), Except.ok true, Except.error "update failed", Except.ok (),
          Except.ok ()⟩ "t1" "mongodb://localhost:27017/db").1.success = false
      ∧ (DatabaseManager.test_user_database_operations
          ⟨Except.ok (), Except.ok true, Except.error "update failed", Except.ok (),
            Except.ok ()⟩ "t1" "mongodb://localhost:27017/db").2.contains
            (DatabaseManager.DBEvent.insertOne "test_collection") = true
      ∧ (DatabaseManager.test_user_database_operations
          ⟨Except.ok (), Except.ok true, Except.error "update failed", Except.ok (),
            Except.ok ()⟩ "t1" "mongodb://localhost:27017/db").2.contains
            (DatabaseManager.DBEvent.deleteOne "test_collection") = false
      ∧ (DatabaseManager.test_user_database_operations
          ⟨Except.ok (), Except.ok true, Except.error "update failed", Except.ok (),
            Except.ok ()⟩ "t1" "mongodb://localhost:27017/db").2.contains
            (DatabaseManager.DBEvent.dropCollection "test_collection") = false) := by
  decide

/-- C8 amended: the smoke test performs insert, find-by-id, update, delete
and drop in that order and never anything else (every trace is a leading
segment of that sequence, so a mid-sequence failure aborts with no
further operation and in particular no cleanup); on success
operations_tested records insert, find, update and delete (drop is
performed as cleanup but not recorded) with no error; on failure an error
is recorded. -/
theorem smoke_test_spec (env : DatabaseManager.SmokeOutcomes)
    (user_id connection_string : String) :
    ((DatabaseManager.test_user_database_operations env user_id
        connection_string).2.isPrefixOf DatabaseManager.smoke_test_events = true)
    ∧ ((DatabaseManager.test_user_database_operations env user_id
          connection_string).1.success = true →
        (DatabaseManager.test_user_database_operations env user_id
            connection_string).1 =
          ⟨true, ["insert", "find", "update", "delete"], none⟩
        ∧ (DatabaseManager.test_user_database_operations env user_id
            connection_string).2 = DatabaseManager.smoke_test_events)
    ∧ ((DatabaseManager.test_user_database_operations env user_id
          connection_string).1.success = false →
        (DatabaseManager.test_user_database_operations env user_id
            connection_string).1.error ≠ none) := by
  rcases env with ⟨ir, fr, ur, dr, pr⟩
  rcases ir with eI | uI
  · exact ⟨rfl, by simp [DatabaseManager.test_user_database_operations],
      by simp [DatabaseManager.test_user_database_operations]⟩
  · rcases fr with eF | found
    · exact ⟨rfl, by simp [DatabaseManager.test_user_database_operations],
        by simp [DatabaseManager.test_user_database_operations]⟩
    · cases found
      · exact ⟨rfl, by simp [DatabaseManager.test_user_database_operations],
          by simp [DatabaseManager.test_user_database_operations]⟩
      · rcases ur with eU | uU
        · exact ⟨rfl, by simp [DatabaseManager.test_user_database_operations],
            by simp [DatabaseManager.test_user_database_operations]⟩
        · rcases dr with eD | uD
          · exact ⟨rfl, by simp [DatabaseManager.test_user_database_operations],
              by simp [DatabaseManager.test_user_database_operations]⟩
          · rcases pr with eP | uP
            · exact ⟨rfl, by simp [DatabaseManager.test_user_database_operations],
                by simp [DatabaseManager.test_user_database_operations]⟩
            · exact ⟨rfl, by simp [DatabaseManager.test_user_database_operations],
                by simp [DatabaseManager.test_user_database_operations]⟩

/-- Witness for amended C8: the fully successful run records exactly
insert, find, update and delete and performs the full event sequence
ending in the drop. -/
theorem smoke_test_spec_witness :
    (DatabaseManager.test_user_database_operations
        ⟨Except.ok (), Except.ok true, Except.ok (), Except.ok (), Except.ok ()⟩
        "t1" "mongodb://localhost:27017/db").1 =
      ⟨true, ["insert", "find", "update", "delete"], none⟩
    ∧ (DatabaseManager.test_user_database_operations
        ⟨Except.ok (), Except.ok true, Except.ok (), Except.ok (), Except.ok ()⟩
        "t1" "mongodb://localhost:27017/db").2 = DatabaseManager.smoke_test_events := by
  exact (smoke_test_spec
    ⟨Except.ok (), Except.ok true, Except.ok (), Except.ok (), Except.ok ()⟩
    "t1" "mongodb://localhost:27017/db").2.1 (by decide)

/-- C10 fails as stated: with limit = 0 the cursor limit is indeed not
applied, but the materialization to_list(length=0) returns the empty
list, so a filter matching two documents returns none of them. -/
theorem find_documents_limit_zero_counterexample :
    ModelOperations.find_documents ([1, 2] : List Nat) (fun _ => true) (some 0) none
      none (fun _ l => l) = []
    ∧ List.filter (fun _ => true) ([1, 2] : List Nat) = [1, 2] := by
  decide

/-- C10 amended: skip = 0 behaves exactly as an unset skip; limit = 0
applies no cursor limit but the result is materialized through
to_list(length=0) and is therefore always the empty list; an unset limit
returns every matching document; a strictly positive limit returns the
matching documents truncated to that many. -/
theorem find_documents_falsy_args_spec {D : Type} (docs : List D)
    (filter_pred : D → Bool) (sort : Option (List (String × Int)))
    (sortApply : List (String × Int) → List D → List D) :
    (∀ skip, ModelOperations.find_documents docs filter_pred (some 0) skip sort
        sortApply = [])
    ∧ (∀ limit, ModelOperations.find_documents docs filter_pred limit (some 0) sort
        sortApply =
        ModelOperations.find_documents docs filter_pred limit none sort sortApply)
    ∧ ModelOperations.find_documents docs filter_pred none none none sortApply =
        docs.filter filter_pred
    ∧ (∀ n, 0 < n →
        ModelOperations.find_documents docs filter_pred (some n) none none sortApply =
          (docs.filter filter_pred).take n) := by
  refine ⟨?_, ?_, ?_, ?_⟩
  · intro skip
    simp [ModelOperations.find_documents, ModelOperations.truthyNat,
      ModelOperations.cursor_to_list]
  · intro limit
    simp [ModelOperations.find_documents, ModelOperations.truthyNat]
  · simp [ModelOperations.find_documents, ModelOperations.truthyNat,
      ModelOperations.cursor_to_list]
  · intro n hn
    have hne : (n == 0) = false := by
      simpa using Nat.pos_iff_ne_zero.mp hn
    simp [ModelOperations.find_documents, ModelOperations.truthyNat,
      ModelOperations.cursor_to_list, hne, List.take_take]

/-- Witness for amended C10: a strictly positive limit of 1 on a
three-document collection returns the first matching document only. -/
theorem find_documents_falsy_args_spec_witness :
    ModelOperations.find_documents ([1, 2, 3] : List Nat) (fun _ => true) (some 1)
      none none (fun _ l => l) = [1] := by
  have h := (find_documents_falsy_args_spec ([1, 2, 3] : List Nat) (fun _ => true)
    none (fun _ l => l)).2.2.2 1 (by decide)
  rw [h]
  decide
